import Mathlib

/-!
Verification of the message-board backend (`application.py`): a Flask service
over a DynamoDB table `talk_messages` keyed by `(room_id, msg_id)`.

The DynamoDB table is embedded as a list of items kept sorted by the
`(room_id, msg_id)` key, matching DynamoDB's physical key order (partition
key, then sort key); `query` with `ScanIndexForward=True` reads that order.
Python-level coercions (`str`, `int`, truncation by slicing, falsiness of
parsed JSON) are embedded explicitly.  The ULID generator and the clock are
nondeterministic in the source, so handlers take the generated `msg_id` and
`ts` as arguments.
-/

namespace ChatApp

/-- Parsed JSON values as Python's `json` module produces them
(`None`, `bool`, `int`, `str`, `list`, `dict`).  Non-integral numbers are
out of scope; JSON object keys are assumed distinct. -/
inductive JVal where
  | null
  | bool (b : Bool)
  | num (n : Int)
  | str (s : String)
  | arr (elems : List JVal)
  | obj (fields : List (String × JVal))
deriving Repr, BEq

mutual

/-- Python `repr` on parsed-JSON values (string escaping elided: the
handlers only slice and store the result, never re-parse it). -/
def pyRepr : JVal → String
  | .null => "None"
  | .bool true => "True"
  | .bool false => "False"
  | .num n => toString n
  | .str s => "'" ++ s ++ "'"
  | .arr l => "[" ++ pyReprList l ++ "]"
  | .obj l => "\x7b" ++ pyReprFields l ++ "\x7d"

/-- Comma-separated `repr`s of list elements. -/
def pyReprList : List JVal → String
  | [] => ""
  | [x] => pyRepr x
  | x :: xs => pyRepr x ++ ", " ++ pyReprList xs

/-- Comma-separated `repr`s of dict entries. -/
def pyReprFields : List (String × JVal) → String
  | [] => ""
  | [(k, v)] => "'" ++ k ++ "': " ++ pyRepr v
  | (k, v) :: xs => "'" ++ k ++ "': " ++ pyRepr v ++ ", " ++ pyReprFields xs

end

/-- Python `str()` on a parsed-JSON value: identity on strings, `repr`
otherwise (`str(None) = "None"`, `str(True) = "True"`, ...). -/
def pyStr : JVal → String
  | .str s => s
  | v => pyRepr v

/-- Python truthiness test on a parsed-JSON value: `None`, `False`, `0`,
`""`, `[]` and `\x7b\x7d` are falsy. -/
def pyFalsy : JVal → Bool
  | .null => true
  | .bool b => !b
  | .num n => n == 0
  | .str s => s == ""
  | .arr l => l.isEmpty
  | .obj l => l.isEmpty

/-- Python string slicing `s[:n]`: the first `n` characters (code points). -/
def pyTake (n : Nat) (s : String) : String := ⟨s.data.take n⟩

/-- Python `int(s)` on a string: optional surrounding whitespace, optional
sign, then a nonempty run of decimal digits (underscore grouping elided).
`none` models the `ValueError` raised otherwise. -/
def pyInt (s : String) : Option Int :=
  let t := ((s.data.dropWhile Char.isWhitespace).reverse.dropWhile
      Char.isWhitespace).reverse
  let neg := t.head? == some '-'
  let core := if neg || t.head? == some '+' then t.tail else t
  if core.length > 0 && core.all Char.isDigit then
    let n : Nat := core.foldl (fun acc c => acc * 10 + (c.toNat - 48)) 0
    some (if neg then -(n : Int) else (n : Int))
  else
    none

/-- A stored message row: exactly the attributes written by `create_message`
(`item = \x7b"room_id", "msg_id", "ts", "user", "text"\x7d`).  `ts` is
milliseconds since the epoch, `int(time.time() * 1000)`. -/
structure Item where
  room_id : String
  msg_id : String
  ts : Nat
  user : String
  text : String
deriving Repr, DecidableEq

/-- Two items carry the same DynamoDB primary key (partition key `room_id`,
sort key `msg_id`). -/
def sameKey (a b : Item) : Prop := a.room_id = b.room_id ∧ a.msg_id = b.msg_id

instance (a b : Item) : Decidable (sameKey a b) := by
  unfold sameKey; infer_instance

/-- DynamoDB's key order: by partition key, then by sort key.  Items are
stored (and range-read) in this order. -/
def keyLt (a b : Item) : Prop :=
  a.room_id < b.room_id ∨ (a.room_id = b.room_id ∧ a.msg_id < b.msg_id)

instance (a b : Item) : Decidable (keyLt a b) := by
  unfold keyLt; infer_instance

/-- The table: rows in DynamoDB key order. -/
abbrev Store := List Item

/-- The table invariant: strictly ascending by `(room_id, msg_id)` (keys are
unique, enforced by the conditional writes). -/
def StoreInv (store : Store) : Prop := store.Pairwise keyLt

/-- Whether the table holds an item with primary key
`(room_id, msg_id)` — the predicate behind both `attribute_not_exists(msg_id)`
on put and `attribute_exists(msg_id)` on delete, each of which is evaluated
by DynamoDB against the item addressed by the request's full key. -/
def keyExists (room_id msg_id : String) (store : Store) : Bool :=
  store.any fun x => x.room_id == room_id && x.msg_id == msg_id

/-- Insert a row at its key position, as DynamoDB's storage does. -/
def putSorted (it : Item) : Store → Store
  | [] => [it]
  | x :: xs => if keyLt it x then it :: x :: xs else x :: putSorted it xs

/-- Outcome of a DynamoDB data-plane call: either a value or a
`ClientError` carrying an error code and message. -/
inductive DynamoResult (α : Type) where
  | ok (a : α)
  | clientError (code msg : String)
deriving Repr, DecidableEq

/-- `table.put_item(Item=item, ConditionExpression="attribute_not_exists(msg_id)")`:
fails the condition iff the key is already present, otherwise stores the row. -/
def put_item (it : Item) (store : Store) : DynamoResult Store :=
  if keyExists it.room_id it.msg_id store then
    .clientError "ConditionalCheckFailedException" "The conditional request failed"
  else
    .ok (putSorted it store)

/-- `table.delete_item(Key=..., ConditionExpression="attribute_exists(msg_id)")`:
fails the condition iff the key is absent, otherwise removes the row. -/
def delete_item (room_id msg_id : String) (store : Store) : DynamoResult Store :=
  if keyExists room_id msg_id store then
    .ok (store.filter fun x => !(x.room_id == room_id && x.msg_id == msg_id))
  else
    .clientError "ConditionalCheckFailedException" "The conditional request failed"

/-- `table.query(KeyConditionExpression=Key("room_id").eq(room_id),
ScanIndexForward=True, Limit=limit)`: the partition's rows in ascending
sort-key order, at most `limit` of them. -/
def dynamoQuery (room_id : String) (limit : Nat) (store : Store) : List Item :=
  (store.filter fun x => x.room_id == room_id).take limit

/-- An HTTP response body produced by the handlers. -/
inductive Body where
  | items (l : List Item)
  | item (it : Item)
  | msg (s : String)
  | empty
deriving Repr, DecidableEq

/-- An HTTP response: status code and body. -/
structure Response where
  status : Nat
  body : Body
deriving Repr, DecidableEq

/-- `GET /api/rooms/<room_id>/messages` (`list_messages`).  `limitParam` is
`request.args.get("limit")`; `int(request.args.get("limit", "50"))` defaults
it to `"50"`.  A `ValueError` from `int()` escapes the handler (Flask's
generic 500); a non-positive `Limit` is rejected by DynamoDB with a
`ValidationException` `ClientError`, which the handler maps to
`abort(500, message)`.  Otherwise the query result is returned as JSON with
status 200.  The handler issues no write, so the store is returned
unchanged. -/
def list_messages (room_id : String) (limitParam : Option String)
    (store : Store) : Response × Store :=
  match pyInt (limitParam.getD "50") with
  | none => (⟨500, .msg "Internal Server Error"⟩, store)
  | some n =>
    if n ≤ 0 then
      (⟨500, .msg "One or more parameter values were invalid"⟩, store)
    else
      (⟨200, .items (dynamoQuery room_id n.toNat store)⟩, store)

/-- `request.get_json(force=True, silent=True) or \x7b\x7d` followed by the
dict access pattern of `create_message`: an absent/unparseable body
(`None` from `silent=True`) and every falsy parsed value are replaced by
the empty dict; a truthy non-dict body makes `payload.get` raise
(`none` here — an uncaught `AttributeError`, outside the claims). -/
def normalizePayload (body : Option JVal) : Option (List (String × JVal)) :=
  match body with
  | none => some []
  | some v =>
    if pyFalsy v then some []
    else match v with
      | .obj fields => some fields
      | _ => none

/-- `user = str(payload.get("user", "anonymous"))[:64]`. -/
def normUser (payload : List (String × JVal)) : String :=
  pyTake 64 (pyStr ((payload.lookup "user").getD (.str "anonymous")))

/-- `text = str(payload.get("text", ""))[:4096]`. -/
def normText (payload : List (String × JVal)) : String :=
  pyTake 4096 (pyStr ((payload.lookup "text").getD (.str "")))

/-- `POST /api/rooms/<room_id>/messages` (`create_message`).  `body` is the
parsed JSON body (`none` when absent or unparseable); `msg_id` and `ts` are
the values produced by `str(ulid.new())` and `int(time.time() * 1000)`.
Mirrors the source: normalize `user` and `text` with `str(...)` and slicing,
reject empty `text` with `abort(400, "text is required")`, then do the
conditional put; a `ClientError` becomes `abort(500, message)`. -/
def create_message (room_id : String) (body : Option JVal)
    (msg_id : String) (ts : Nat) (store : Store) :
    Option (Response × Store) :=
  match normalizePayload body with
  | none => none
  | some payload =>
    let user := normUser payload
    let text := normText payload
    if text = "" then
      some (⟨400, .msg "text is required"⟩, store)
    else
      let item : Item := ⟨room_id, msg_id, ts, user, text⟩
      match put_item item store with
      | .ok store' => some (⟨201, .item item⟩, store')
      | .clientError _ m => some (⟨500, .msg m⟩, store)

/-- The `except ClientError` branch of `delete_message`:
`ConditionalCheckFailedException` becomes `abort(404, "message not found")`,
any other code becomes `abort(500, message)`.  The store is untouched. -/
def handleDeleteError (code msg : String) (store : Store) : Response × Store :=
  if code == "ConditionalCheckFailedException" then
    (⟨404, .msg "message not found"⟩, store)
  else
    (⟨500, .msg msg⟩, store)

/-- `DELETE /api/rooms/<room_id>/messages/<msg_id>` (`delete_message`):
conditional delete, `("", 204)` on success, errors via
`handleDeleteError`. -/
def delete_message (room_id msg_id : String) (store : Store) :
    Response × Store :=
  match delete_item room_id msg_id store with
  | .ok store' => (⟨204, .empty⟩, store')
  | .clientError code msg => handleDeleteError code msg store

/-! ### Supporting lemmas about the store embedding -/

theorem mem_putSorted {it a : Item} : ∀ {l : Store},
    a ∈ putSorted it l ↔ a = it ∨ a ∈ l := by
  intro l
  induction l with
  | nil => simp [putSorted]
  | cons x xs ih =>
    by_cases h : keyLt it x
    · simp only [putSorted, if_pos h, List.mem_cons]
    · simp only [putSorted, if_neg h, List.mem_cons, ih]
      tauto

theorem countP_putSorted (p : Item → Bool) (it : Item) : ∀ (l : Store),
    (putSorted it l).countP p = l.countP p + (if p it then 1 else 0) := by
  intro l
  induction l with
  | nil => by_cases h : p it <;> simp [putSorted, List.countP_cons, h]
  | cons x xs ih =>
    by_cases h : keyLt it x
    · by_cases hp : p it <;> by_cases hx : p x <;>
        simp [putSorted, h, List.countP_cons, hp, hx]
    · by_cases hx : p x <;>
        simp +arith [putSorted, h, List.countP_cons, hx, ih]

theorem filter_putSorted_neg (p : Item → Bool) {it : Item} (hp : p it = false) :
    ∀ (l : Store), (putSorted it l).filter p = l.filter p := by
  intro l
  induction l with
  | nil => simp [putSorted, hp]
  | cons x xs ih =>
    by_cases h : keyLt it x
    · simp [putSorted, h, List.filter_cons, hp]
    · by_cases hx : p x <;> simp [putSorted, h, List.filter_cons, hx, ih]

theorem keyLt_trichotomy {a b : Item} (h : ¬ sameKey a b) :
    keyLt a b ∨ keyLt b a := by
  rcases lt_trichotomy a.room_id b.room_id with hr | hr | hr
  · exact Or.inl (Or.inl hr)
  · rcases lt_trichotomy a.msg_id b.msg_id with hm | hm | hm
    · exact Or.inl (Or.inr ⟨hr, hm⟩)
    · exact absurd ⟨hr, hm⟩ h
    · exact Or.inr (Or.inr ⟨hr.symm, hm⟩)
  · exact Or.inr (Or.inl hr)

theorem keyLt_trans {a b c : Item} (hab : keyLt a b) (hbc : keyLt b c) :
    keyLt a c := by
  rcases hab with h1 | ⟨h1, h1m⟩ <;> rcases hbc with h2 | ⟨h2, h2m⟩
  · exact Or.inl (lt_trans h1 h2)
  · exact Or.inl (h2 ▸ h1)
  · exact Or.inl (h1 ▸ h2)
  · exact Or.inr ⟨h1.trans h2, lt_trans h1m h2m⟩

theorem pairwise_putSorted {it : Item} : ∀ {l : Store},
    l.Pairwise keyLt → (∀ x ∈ l, ¬ sameKey it x) →
    (putSorted it l).Pairwise keyLt := by
  intro l
  induction l with
  | nil => intro _ _; simp [putSorted]
  | cons x xs ih =>
    intro hpw hfresh
    rcases List.pairwise_cons.mp hpw with ⟨hx, hxs⟩
    by_cases h : keyLt it x
    · rw [putSorted, if_pos h]
      refine List.pairwise_cons.mpr ⟨?_, hpw⟩
      intro y hy
      rcases List.mem_cons.mp hy with rfl | hy
      · exact h
      · exact keyLt_trans h (hx y hy)
    · rw [putSorted, if_neg h]
      have hxit : keyLt x it := by
        rcases keyLt_trichotomy (fun hsk => hfresh x (by simp) hsk) with h1 | h1
        · exact absurd h1 h
        · exact h1
      refine List.pairwise_cons.mpr ⟨?_, ih hxs ?_⟩
      · intro y hy
        rcases mem_putSorted.mp hy with rfl | hy
        · exact hxit
        · exact hx y hy
      · intro y hy
        exact hfresh y (by simp [hy])

theorem pyTake_length_le (n : Nat) (s : String) : (pyTake n s).length ≤ n := by
  show (s.data.take n).length ≤ n
  rw [List.length_take]
  omega

theorem create_201_inv {room_id msg_id : String} {body : Option JVal}
    {ts : Nat} {store store' : Store} {it : Item}
    (h : create_message room_id body msg_id ts store =
      some (⟨201, .item it⟩, store')) :
    it.room_id = room_id ∧ it.msg_id = msg_id ∧ it.ts = ts ∧
    keyExists room_id msg_id store = false ∧
    store' = putSorted it store ∧
    it.user.length ≤ 64 ∧ it.text.length ≤ 4096 ∧ it.text ≠ "" ∧
    (∃ payload, normalizePayload body = some payload ∧
      it.user = normUser payload ∧ it.text = normText payload) := by
  cases hnp : normalizePayload body with
  | none => simp [create_message, hnp] at h
  | some payload =>
    simp only [create_message, hnp] at h
    by_cases ht : normText payload = ""
    · rw [if_pos ht] at h
      simp at h
    · rw [if_neg ht] at h
      unfold put_item at h
      by_cases hk : keyExists room_id msg_id store = true
      · rw [if_pos hk] at h
        simp at h
      · rw [if_neg hk] at h
        simp only [Option.some.injEq, Prod.mk.injEq, Response.mk.injEq,
          Body.item.injEq] at h
        obtain ⟨⟨-, hit⟩, hs⟩ := h
        subst hit
        refine ⟨rfl, rfl, rfl, by simpa using hk, hs.symm,
          pyTake_length_le _ _, pyTake_length_le _ _, ht,
          payload, rfl, rfl, rfl⟩

theorem keyExists_eq_true_iff {room_id msg_id : String} {store : Store} :
    keyExists room_id msg_id store = true ↔
      ∃ x ∈ store, x.room_id = room_id ∧ x.msg_id = msg_id := by
  simp [keyExists]

theorem normText_nil : normText [] = "" := by decide

theorem normalizePayload_falsy {v : JVal} (hv : pyFalsy v = true) :
    normalizePayload (some v) = some [] := by
  simp [normalizePayload, hv]

theorem keyExists_filter_self (room_id msg_id : String) (store : Store) :
    keyExists room_id msg_id
      (store.filter fun x => !(x.room_id == room_id && x.msg_id == msg_id))
      = false := by
  simp [keyExists, List.mem_filter]
  intro x _ h
  tauto

theorem keyExists_putSorted_self {it : Item} {room_id msg_id : String}
    (hr : it.room_id = room_id) (hm : it.msg_id = msg_id) (store : Store) :
    keyExists room_id msg_id (putSorted it store) = true := by
  simp [keyExists, List.any_eq_true]
  exact ⟨it, mem_putSorted.mpr (Or.inl rfl), hr, hm⟩

theorem delete_message_of_exists {room_id msg_id : String} {store : Store}
    (h : keyExists room_id msg_id store = true) :
    delete_message room_id msg_id store =
      (⟨204, .empty⟩,
        store.filter fun x =>
          !(x.room_id == room_id && x.msg_id == msg_id)) := by
  unfold delete_message delete_item
  rw [h, if_pos rfl]

theorem delete_message_of_not_exists {room_id msg_id : String}
    {store : Store} (h : keyExists room_id msg_id store = false) :
    delete_message room_id msg_id store =
      (⟨404, .msg "message not found"⟩, store) := by
  unfold delete_message delete_item
  rw [h, if_neg (by simp)]
  simp [handleDeleteError]

/-! ### Claim theorems -/

/-- **C4**: a create request whose normalized `text` is empty is rejected
with status 400 and body "text is required", and the store is returned
unchanged (no write attempted). -/
theorem create_empty_text_rejected (room_id : String) (body : Option JVal)
    (payload : List (String × JVal)) (msg_id : String) (ts : Nat)
    (store : Store)
    (hb : normalizePayload body = some payload)
    (ht : normText payload = "") :
    create_message room_id body msg_id ts store =
      some (⟨400, .msg "text is required"⟩, store) := by
  simp [create_message, hb, ht]

/-- Witness for C4: a create with an empty body (normalized text empty) on
room "lobby" yields 400 "text is required" and leaves the store as it was. -/
theorem create_empty_text_rejected_witness :
    create_message "lobby" none "01A" 5 [] =
      some (⟨400, .msg "text is required"⟩, []) :=
  create_empty_text_rejected "lobby" none [] "01A" 5 [] rfl (by decide)

/-- **C6**: with a parsed body whose normalized `text` is nonempty, create
stores the record via a write conditioned on the `(room_id, msg_id)` key not
existing: when the key is fresh the response is 201 carrying the full stored
record — exactly the fields `room_id` (the path parameter), `msg_id`, `ts`
(the generated id and millisecond timestamp) and the normalized `user` and
`text` — and the record is inserted; when the key already exists the
conditional write fails and the handler returns 500 with the backend's
message. -/
theorem create_stores_and_returns_full_record (room_id : String)
    (body : Option JVal) (payload : List (String × JVal)) (msg_id : String)
    (ts : Nat) (store : Store)
    (hb : normalizePayload body = some payload)
    (ht : normText payload ≠ "") :
    (keyExists room_id msg_id store = false →
      create_message room_id body msg_id ts store =
        some (⟨201, .item ⟨room_id, msg_id, ts, normUser payload,
                           normText payload⟩⟩,
          putSorted ⟨room_id, msg_id, ts, normUser payload,
                     normText payload⟩ store))
    ∧ (keyExists room_id msg_id store = true →
      create_message room_id body msg_id ts store =
        some (⟨500, .msg "The conditional request failed"⟩, store)) := by
  constructor <;> intro hk <;> simp [create_message, hb, ht, put_item, hk]

/-- Witness for C6: creating `\x7b"user": "alice", "text": "hi"\x7d` in room
"lobby" on the empty store returns 201 with the full record and stores it. -/
theorem create_stores_and_returns_full_record_witness :
    create_message "lobby"
        (some (.obj [("user", .str "alice"), ("text", .str "hi")]))
        "01A" 5 [] =
      some (⟨201, .item ⟨"lobby", "01A", 5, "alice", "hi"⟩⟩,
        [⟨"lobby", "01A", 5, "alice", "hi"⟩]) := by
  have h := (create_stores_and_returns_full_record "lobby"
      (some (.obj [("user", .str "alice"), ("text", .str "hi")]))
      [("user", .str "alice"), ("text", .str "hi")]
      "01A" 5 [] rfl (by decide)).1 (by decide)
  exact h

/-- **C9**: a create whose body parses to a falsy JSON value (`null`,
`false`, `0`, `""`, `[]`) is handled exactly like an absent body: the
payload normalizes to the empty dict, so the request is rejected with 400
"text is required" and the store is unchanged. -/
theorem falsy_body_like_absent (room_id msg_id : String) (ts : Nat)
    (store : Store) (v : JVal) (hv : pyFalsy v = true) :
    (create_message room_id (some v) msg_id ts store =
      create_message room_id none msg_id ts store)
    ∧ (create_message room_id (some v) msg_id ts store =
        some (⟨400, .msg "text is required"⟩, store))
    ∧ ([JVal.null, .bool false, .num 0, .str "", .arr []].all pyFalsy
        = true) := by
  have h1 : normalizePayload (some v) = some [] := normalizePayload_falsy hv
  have h2 : normalizePayload none = some [] := rfl
  refine ⟨?_, ?_, by decide⟩
  · simp [create_message, h1, h2]
  · simp [create_message, h1, normText_nil]

/-- Witness for C9: a literal `0` body is rejected like an absent body. -/
theorem falsy_body_like_absent_witness :
    create_message "lobby" (some (.num 0)) "01A" 5 [] =
      some (⟨400, .msg "text is required"⟩, []) :=
  (falsy_body_like_absent "lobby" "01A" 5 [] (.num 0) (by decide)).2.1

/-- **C10**: a create body with `"user": null` stores the user as the
string "None" (Python `str(None)`), not as "anonymous"; the "anonymous"
default applies only when the `user` key is absent, and any present value
is stored as its string coercion (truncated to 64). -/
theorem user_null_stored_as_None (room_id msg_id : String) (ts : Nat) :
    (create_message room_id
        (some (.obj [("user", JVal.null), ("text", JVal.str "hi")]))
        msg_id ts [] =
      some (⟨201, .item ⟨room_id, msg_id, ts, "None", "hi"⟩⟩,
        [⟨room_id, msg_id, ts, "None", "hi"⟩]))
    ∧ "None" ≠ "anonymous"
    ∧ (∀ (payload : List (String × JVal)) (v : JVal),
        payload.lookup "user" = some v →
        normUser payload = pyTake 64 (pyStr v)) := by
  refine ⟨rfl, by decide, ?_⟩
  intro payload v hv
  simp [normUser, hv]

/-- Witness for C10: at a concrete request, `user: null` is stored as
"None", and a present `user` value is stored as its string coercion. -/
theorem user_null_stored_as_None_witness :
    (create_message "lobby"
        (some (.obj [("user", JVal.null), ("text", JVal.str "hi")]))
        "01A" 5 [] =
      some (⟨201, .item ⟨"lobby", "01A", 5, "None", "hi"⟩⟩,
        [⟨"lobby", "01A", 5, "None", "hi"⟩]))
    ∧ normUser [("user", JVal.null)] = pyTake 64 (pyStr JVal.null) :=
  ⟨(user_null_stored_as_None "lobby" "01A" 5).1,
   (user_null_stored_as_None "lobby" "01A" 5).2.2
     [("user", JVal.null)] JVal.null rfl⟩

/-- **C3**: create-input normalization: an absent body is handled as the
empty JSON object; the normalized `user` and `text` never exceed 64 and
4096 characters; `user` defaults to "anonymous" exactly when the key is
absent; consequently any record a create stores is within those bounds. -/
theorem create_normalizes_input (room_id : String) (body : Option JVal)
    (msg_id : String) (ts : Nat) (store : Store) :
    (create_message room_id none msg_id ts store =
      create_message room_id (some (.obj [])) msg_id ts store)
    ∧ (∀ (payload : List (String × JVal)),
        normalizePayload body = some payload →
        (normUser payload).length ≤ 64 ∧ (normText payload).length ≤ 4096 ∧
        (payload.lookup "user" = none → normUser payload = "anonymous"))
    ∧ (∀ store' it,
        create_message room_id body msg_id ts store =
          some (⟨201, .item it⟩, store') →
        it.user.length ≤ 64 ∧ it.text.length ≤ 4096) := by
  refine ⟨rfl, ?_, ?_⟩
  · intro payload _
    refine ⟨pyTake_length_le _ _, pyTake_length_le _ _, ?_⟩
    intro hu
    simp [normUser, hu]
    decide
  · intro store' it h
    obtain ⟨-, -, -, -, -, hu, htl, -, -⟩ := create_201_inv h
    exact ⟨hu, htl⟩

/-- Witness for C3: the empty payload normalizes within bounds and defaults
the user to "anonymous". -/
theorem create_normalizes_input_witness :
    (normUser []).length ≤ 64 ∧ (normText []).length ≤ 4096 ∧
    normUser [] = "anonymous" := by
  have h := (create_normalizes_input "lobby" none "01A" 5 []).2.1 [] rfl
  exact ⟨h.1, h.2.1, h.2.2 rfl⟩

/-- **C2**: delete semantics: when the `(room_id, msg_id)` record exists the
response is 204 with an empty body and the record is removed; when it does
not exist the conditional check fails and the response is 404 "message not
found"; any other `ClientError` code yields 500 carrying the backend's
message; and for every created message the matching delete succeeds exactly
once — a second delete of the same pair returns not-found. -/
theorem delete_semantics (room_id msg_id : String) (store : Store) :
    (keyExists room_id msg_id store = true →
      delete_message room_id msg_id store =
        (⟨204, .empty⟩,
          store.filter fun x => !(x.room_id == room_id && x.msg_id == msg_id))
      ∧ keyExists room_id msg_id (delete_message room_id msg_id store).2
          = false)
    ∧ (keyExists room_id msg_id store = false →
      delete_message room_id msg_id store =
        (⟨404, .msg "message not found"⟩, store))
    ∧ (∀ code msg, code ≠ "ConditionalCheckFailedException" →
      handleDeleteError code msg store = (⟨500, .msg msg⟩, store))
    ∧ (∀ body ts store' it,
        create_message room_id body msg_id ts store =
          some (⟨201, .item it⟩, store') →
        (delete_message room_id msg_id store').1 = ⟨204, .empty⟩
        ∧ (delete_message room_id msg_id
            (delete_message room_id msg_id store').2).1 =
              ⟨404, .msg "message not found"⟩) := by
  refine ⟨?_, ?_, ?_, ?_⟩
  · intro hk
    refine ⟨delete_message_of_exists hk, ?_⟩
    rw [delete_message_of_exists hk]
    exact keyExists_filter_self room_id msg_id store
  · intro hk
    exact delete_message_of_not_exists hk
  · intro code msg hc
    simp [handleDeleteError, hc]
  · intro body ts store' it h
    obtain ⟨hr, hm, -, -, hs, -, -, -, -⟩ := create_201_inv h
    have hk : keyExists room_id msg_id store' = true := by
      subst hs; exact keyExists_putSorted_self hr hm store
    have h1 := delete_message_of_exists hk
    refine ⟨by rw [h1], ?_⟩
    rw [h1]
    rw [delete_message_of_not_exists
      (keyExists_filter_self room_id msg_id store')]

/-- Witness for C2: deleting the only record of room "lobby" yields 204 and
empties the store; deleting from the empty store yields 404; a non-condition
error code yields 500 with the backend message; and a created message is
deleted exactly once (the second delete is 404). -/
theorem delete_semantics_witness :
    delete_message "lobby" "01A" [⟨"lobby", "01A", 5, "alice", "hi"⟩] =
      (⟨204, .empty⟩, [])
    ∧ delete_message "lobby" "01A" [] =
        (⟨404, .msg "message not found"⟩, [])
    ∧ handleDeleteError "ProvisionedThroughputExceededException"
        "throttled" [] = (⟨500, .msg "throttled"⟩, [])
    ∧ (delete_message "lobby" "01A"
        [⟨"lobby", "01A", 5, "anonymous", "hi"⟩]).1 = ⟨204, .empty⟩
    ∧ (delete_message "lobby" "01A"
        (delete_message "lobby" "01A"
          [⟨"lobby", "01A", 5, "anonymous", "hi"⟩]).2).1 =
        ⟨404, .msg "message not found"⟩ := by
  have h1 := (delete_semantics "lobby" "01A"
      [⟨"lobby", "01A", 5, "alice", "hi"⟩]).1 (by decide)
  have h2 := (delete_semantics "lobby" "01A" ([] : Store)).2.1 (by decide)
  have h3 := (delete_semantics "lobby" "01A" ([] : Store)).2.2.1
      "ProvisionedThroughputExceededException" "throttled" (by decide)
  have h4 := (delete_semantics "lobby" "01A" ([] : Store)).2.2.2
      (some (.obj [("text", .str "hi")])) 5
      [⟨"lobby", "01A", 5, "anonymous", "hi"⟩]
      ⟨"lobby", "01A", 5, "anonymous", "hi"⟩ rfl
  exact ⟨h1.1, h2, h3, h4.1, h4.2⟩

/-- **C7**: room partitions are isolated: a message created in room A is
stored under room A only, so a list of a different room B returns the same
response as before the create, and every item a list returns belongs to the
listed room. -/
theorem rooms_isolated (roomA roomB : String) (hAB : roomA ≠ roomB)
    (body : Option JVal) (msg_id : String) (ts : Nat) (store store' : Store)
    (it : Item)
    (hc : create_message roomA body msg_id ts store =
      some (⟨201, .item it⟩, store')) :
    (∀ limitParam, (list_messages roomB limitParam store').1 =
      (list_messages roomB limitParam store).1)
    ∧ (∀ limit, dynamoQuery roomB limit store' =
        dynamoQuery roomB limit store)
    ∧ (∀ limit x, x ∈ dynamoQuery roomB limit store' →
        x.room_id = roomB) := by
  obtain ⟨hr, -, -, -, hs, -, -, -, -⟩ := create_201_inv hc
  have hfil : ∀ limit, dynamoQuery roomB limit store' =
      dynamoQuery roomB limit store := by
    intro limit
    subst hs
    unfold dynamoQuery
    rw [filter_putSorted_neg]
    rw [hr]
    simp [beq_eq_false_iff_ne]
    exact hAB
  refine ⟨?_, hfil, ?_⟩
  · intro limitParam
    cases hpi : pyInt (limitParam.getD "50") with
    | none => simp [list_messages, hpi]
    | some n =>
      by_cases hn : n ≤ 0
      · simp [list_messages, hpi, hn]
      · simp [list_messages, hpi, hn, hfil]
  · intro limit x hx
    have := List.mem_filter.mp (List.mem_of_mem_take hx)
    simpa using this.2

/-- Witness for C7: after creating a message in room "a", listing room "b"
returns the same (empty) response as before. -/
theorem rooms_isolated_witness :
    (list_messages "b" none [⟨"a", "01A", 5, "anonymous", "hi"⟩]).1 =
      (list_messages "b" none []).1 := by
  have h := rooms_isolated "a" "b" (by decide)
      (some (.obj [("text", .str "hi")])) "01A" 5 []
      [⟨"a", "01A", 5, "anonymous", "hi"⟩]
      ⟨"a", "01A", 5, "anonymous", "hi"⟩ rfl
  exact h.1 none

/-- **C8**: the `limit` parameter defaults to "50", which parses to 50;
whenever the parameter is a string parsing to a positive integer the
handler's parse step succeeds and the response is 200 (the non-positive
error branch is unreachable); and the service applies no upper bound of its
own: any limit at least the store's size returns the room's entire
partition. -/
theorem limit_parse_and_no_cap (room_id : String) (store : Store) :
    (pyInt "50" = some 50)
    ∧ (list_messages room_id none store =
        (⟨200, .items (dynamoQuery room_id 50 store)⟩, store))
    ∧ (∀ s n, pyInt s = some n → 0 < n →
        list_messages room_id (some s) store =
          (⟨200, .items (dynamoQuery room_id n.toNat store)⟩, store))
    ∧ (∀ n, store.length ≤ n →
        dynamoQuery room_id n store =
          store.filter fun x => x.room_id == room_id) := by
  refine ⟨by decide, ?_, ?_, ?_⟩
  · have h50 : pyInt "50" = some 50 := by decide
    simp [list_messages, h50]
  · intro s n hp hn
    have hn' : ¬ n ≤ 0 := by omega
    simp [list_messages, hp, hn']
  · intro n hlen
    unfold dynamoQuery
    exact List.take_of_length_le (le_trans (List.length_filter_le _ _) hlen)

/-- Witness for C8: the parameter "1000" parses and is honored unchanged. -/
theorem limit_parse_and_no_cap_witness :
    list_messages "lobby" (some "1000") [] =
      (⟨200, .items (dynamoQuery "lobby" (1000 : Int).toNat [])⟩, []) :=
  (limit_parse_and_no_cap "lobby" []).2.2.1 "1000" 1000 (by decide)
    (by decide)

theorem pairwise_msgLt_of_inv {store : Store} (room_id : String)
    (hinv : StoreInv store) (limit : Nat) :
    (dynamoQuery room_id limit store).Pairwise
      (fun a b => a.msg_id < b.msg_id) := by
  have h1 : (store.filter fun x => x.room_id == room_id).Pairwise keyLt :=
    hinv.filter _
  have h2 : ∀ x ∈ store.filter (fun x => x.room_id == room_id),
      x.room_id = room_id := by
    intro x hx
    simpa using (List.mem_filter.mp hx).2
  have h3 : (store.filter fun x => x.room_id == room_id).Pairwise
      (fun a b => a.msg_id < b.msg_id) := by
    refine List.Pairwise.imp_of_mem ?_ h1
    intro a b ha hb hab
    rcases hab with h | ⟨-, h⟩
    · rw [h2 a ha, h2 b hb] at h
      exact absurd h (lt_irrefl _)
    · exact h
  exact h3.sublist (List.take_sublist _ _)

/-- **C5**: with a positive parsed limit, a list request returns 200 whose
body is the room's stored messages in the table's ascending `msg_id` order,
at most `limit` of them — every returned item belongs to the requested
room, an empty room gives the empty array (not an error), a limit at least
the room's size returns the whole room, and the store is untouched
(read-only). -/
theorem list_returns_room_ascending (room_id : String)
    (limitParam : Option String) (n : Int) (store : Store)
    (hinv : StoreInv store)
    (hn : pyInt (limitParam.getD "50") = some n) (hpos : 0 < n) :
    list_messages room_id limitParam store =
      (⟨200, .items (dynamoQuery room_id n.toNat store)⟩, store)
    ∧ (dynamoQuery room_id n.toNat store).length ≤ n.toNat
    ∧ (∀ x ∈ dynamoQuery room_id n.toNat store, x.room_id = room_id)
    ∧ (dynamoQuery room_id n.toNat store).Pairwise
        (fun a b => a.msg_id < b.msg_id)
    ∧ ((store.filter fun x => x.room_id == room_id) = [] →
        dynamoQuery room_id n.toNat store = [])
    ∧ ((store.filter fun x => x.room_id == room_id).length ≤ n.toNat →
        dynamoQuery room_id n.toNat store =
          store.filter fun x => x.room_id == room_id) := by
  have hn' : ¬ n ≤ 0 := by omega
  refine ⟨by simp [list_messages, hn, hn'], ?_, ?_,
    pairwise_msgLt_of_inv room_id hinv n.toNat, ?_, ?_⟩
  · rw [dynamoQuery, List.length_take]
    omega
  · intro x hx
    have := List.mem_filter.mp (List.mem_of_mem_take hx)
    simpa using this.2
  · intro hempty
    simp [dynamoQuery, hempty]
  · intro hle
    exact List.take_of_length_le hle

/-- Witness for C5: listing room "lobby" with the default limit on a
well-formed one-row store returns that row with status 200. -/
theorem list_returns_room_ascending_witness :
    list_messages "lobby" none [⟨"lobby", "01A", 5, "alice", "hi"⟩] =
      (⟨200, .items (dynamoQuery "lobby" (50 : Int).toNat
        [⟨"lobby", "01A", 5, "alice", "hi"⟩])⟩,
        [⟨"lobby", "01A", 5, "alice", "hi"⟩]) :=
  (list_returns_room_ascending "lobby" none 50
    [⟨"lobby", "01A", 5, "alice", "hi"⟩]
    (by simp [StoreInv]) (by decide) (by decide)).1

/-- **C1**: creating a message and immediately listing the same room (with
a positive limit large enough to cover the room, and no record of that room
already carrying the same text) yields a 200 response containing exactly
one record with the created text and the request's `room_id`, and the
created record itself is in the response. -/
theorem create_then_list_exactly_one (room_id : String) (body : Option JVal)
    (msg_id : String) (ts : Nat) (store store' : Store) (it : Item)
    (limitParam : Option String) (n : Int)
    (hc : create_message room_id body msg_id ts store =
      some (⟨201, .item it⟩, store'))
    (hfresh : store.countP
      (fun x => x.room_id == room_id && x.text == it.text) = 0)
    (hn : pyInt (limitParam.getD "50") = some n) (hpos : 0 < n)
    (hlim : (store'.filter fun x => x.room_id == room_id).length ≤ n.toNat) :
    ∃ l, list_messages room_id limitParam store' = (⟨200, .items l⟩, store')
      ∧ l.countP (fun x => x.room_id == room_id && x.text == it.text) = 1
      ∧ it ∈ l ∧ it.room_id = room_id := by
  obtain ⟨hr, -, -, -, hs, -, -, -, -⟩ := create_201_inv hc
  have hn' : ¬ n ≤ 0 := by omega
  have hq : dynamoQuery room_id n.toNat store' =
      store'.filter fun x => x.room_id == room_id :=
    List.take_of_length_le hlim
  refine ⟨dynamoQuery room_id n.toNat store',
    by simp [list_messages, hn, hn'], ?_, ?_, hr⟩
  · rw [hq, List.countP_filter]
    have hpn : (fun x : Item =>
        (x.room_id == room_id && x.text == it.text) && (x.room_id == room_id))
        = fun x : Item => x.room_id == room_id && x.text == it.text := by
      funext x
      cases hx : x.room_id == room_id <;> simp [hx]
    rw [hpn, hs, countP_putSorted]
    have hit : (it.room_id == room_id && it.text == it.text) = true := by
      simp [hr]
    rw [hfresh, hit]
    simp
  · rw [hq]
    refine List.mem_filter.mpr ⟨?_, by simp [hr]⟩
    rw [hs]
    exact mem_putSorted.mpr (Or.inl rfl)

/-- Witness for C1: create `\x7b"text": "hi"\x7d` in room "lobby" on the
empty store, then list "lobby" with the default limit: exactly one record
with that text is returned. -/
theorem create_then_list_exactly_one_witness :
    ∃ l, list_messages "lobby" none
        [⟨"lobby", "01A", 5, "anonymous", "hi"⟩] = (⟨200, .items l⟩,
          [⟨"lobby", "01A", 5, "anonymous", "hi"⟩])
      ∧ l.countP (fun x => x.room_id == "lobby" &&
          x.text == (⟨"lobby", "01A", 5, "anonymous", "hi"⟩ : Item).text) = 1
      ∧ (⟨"lobby", "01A", 5, "anonymous", "hi"⟩ : Item) ∈ l
      ∧ (⟨"lobby", "01A", 5, "anonymous", "hi"⟩ : Item).room_id = "lobby" :=
  create_then_list_exactly_one "lobby" (some (.obj [("text", .str "hi")]))
    "01A" 5 [] [⟨"lobby", "01A", 5, "anonymous", "hi"⟩]
    ⟨"lobby", "01A", 5, "anonymous", "hi"⟩ none 50 rfl (by decide)
    (by decide) (by decide) (by decide)

end ChatApp
